import Mathlib

/-!
Shallow embedding of `src/libfwupdplugin/fu-device-locker.c` (the
`FuDeviceLocker` scoped device guard of fwupd).

Modelling choices, all taken from the source:
* We model the `HAVE_GUSB` build (the `#ifdef HAVE_GUSB` branches are
  compiled in) with `g_return_val_if_fail` checks enabled, which is the
  default GLib configuration.
* A `GError` is its domain quark, its code and its message; quark values
  are symbolic distinct naturals (only distinctness matters to the code).
* An open/close capability function (`FuDeviceLockerFunc`) is modelled by
  the outcome of its k-th invocation on the device: `none` is success
  (`TRUE` with no error set), `some e` is failure with error `e`.
* The locker structure mirrors `struct _FuDeviceLocker` (device, the
  `device_open` flag, the two function pointers), plus an instrumentation
  counter `closeCalls` recording how many times `close_func` has been
  invoked on this guard instance, which the lifetime claims are about.
* `fu_device_locker_finalize` has no error out-parameter in C; the model
  returns the optionally logged warning (`g_warning`) and the number of
  `close_func` invocations performed during finalization.
-/

/-- A GLib `GError`: error domain quark, error code, message. -/
structure GError where
  domain : Nat
  code : Nat
  message : String
deriving DecidableEq

/-- GLib `g_error_matches`: the error has the given domain and code. -/
def g_error_matches (e : GError) (domain code : Nat) : Bool :=
  e.domain == domain && e.code == code

/-- Error domain quark of gusb device errors (symbolic value). -/
def G_USB_DEVICE_ERROR : Nat := 1

/-- Error domain quark of GLib I/O errors (symbolic value). -/
def G_IO_ERROR : Nat := 2

/-- gusb error code: the device is no longer present. -/
def G_USB_DEVICE_ERROR_NO_DEVICE : Nat := 4

/-- GLib I/O error code: operation not supported. -/
def G_IO_ERROR_NOT_SUPPORTED : Nat := 15

/-- Runtime `GType` kind of the object handed to the locker, as inspected
by `G_USB_IS_DEVICE` and `FU_IS_DEVICE` in `fu_device_locker_new`. -/
inductive DeviceKind where
  | gusbDevice
  | fuDevice
  | other
deriving DecidableEq

/-- Behaviour of a `FuDeviceLockerFunc` (an open or close capability
function): the result of its k-th invocation, `none` meaning success and
`some e` meaning failure with error `e`. -/
def FuDeviceLockerFunc : Type := Nat → Option GError

/-- The device object passed to the locker: its runtime type kind, and the
behaviour of the transport-level open/close pair that
`fu_device_locker_new` would select for it (`g_usb_device_open` /
`g_usb_device_close` for a `GUsbDevice`, `fu_device_open` /
`fu_device_close` for a `FuDevice`). -/
structure Device where
  kind : DeviceKind
  openBehavior : FuDeviceLockerFunc
  closeBehavior : FuDeviceLockerFunc

/-- `G_USB_IS_DEVICE`: the object is a `GUsbDevice`. -/
def G_USB_IS_DEVICE (d : Device) : Bool := d.kind == .gusbDevice

/-- `FU_IS_DEVICE`: the object is a `FuDevice`. -/
def FU_IS_DEVICE (d : Device) : Bool := d.kind == .fuDevice

/-- `struct _FuDeviceLocker` (fu-device-locker.c lines 30-36), with the
`closeCalls` instrumentation counter counting `close_func` invocations
made so far on this guard instance. -/
structure FuDeviceLocker where
  device : Device
  device_open : Bool
  open_func : FuDeviceLockerFunc
  close_func : FuDeviceLockerFunc
  closeCalls : Nat

/-- `fu_device_locker_close` (lines 82-109), `HAVE_GUSB` build: if the
guard is already closed it is a no-op returning `TRUE`; otherwise it
invokes `close_func` once.  On `close_func` failure, a `GUsbDevice`
reporting `G_USB_DEVICE_ERROR_NO_DEVICE` is swallowed and `TRUE` is
returned (note the source returns at line 97 without touching
`device_open`); any other failure is propagated and `device_open` is left
`TRUE`.  Only on `close_func` success is `device_open` cleared (line 107).
Returns the call outcome together with the updated guard. -/
def fu_device_locker_close (self : FuDeviceLocker) :
    Except GError Unit × FuDeviceLocker :=
  if self.device_open = false then
    (Except.ok (), self)
  else
    match self.close_func self.closeCalls with
    | some e =>
      let invoked := { self with closeCalls := self.closeCalls + 1 }
      if G_USB_IS_DEVICE self.device &&
          g_error_matches e G_USB_DEVICE_ERROR G_USB_DEVICE_ERROR_NO_DEVICE then
        (Except.ok (), invoked)
      else
        (Except.error e, invoked)
    | none =>
      (Except.ok (), { self with closeCalls := self.closeCalls + 1,
                                 device_open := false })

/-- `fu_device_locker_finalize` (lines 40-54): when the guard is still
open, `close_func` is invoked once and any failure is only logged with
`g_warning`; it is never delivered to any caller (the model has no error
out-channel at all).  Returns the logged warning error, if any, and the
number of `close_func` invocations performed. -/
def fu_device_locker_finalize (self : FuDeviceLocker) : Option GError × Nat :=
  if self.device_open then
    match self.close_func self.closeCalls with
    | some e => (some e, 1)
    | none => (none, 1)
  else
    (none, 0)

/-- Outcome of a constructor call: `NULL` with no error set (a
`g_return_val_if_fail` precondition check tripped), `NULL` with the error
out-parameter set, or the freshly constructed locker. -/
inductive NewResult where
  | precondFail : NewResult
  | failed : GError → NewResult
  | ok : FuDeviceLocker → NewResult

/-- Result of a constructor together with the number of `open_func` and
`close_func` invocations it performed, including any caused by the
`g_autoptr` finalization of the partially built locker on the failure
path. -/
structure NewOutcome where
  result : NewResult
  openCalls : Nat
  closeCalls : Nat

/-- `fu_device_locker_new_full` (lines 185-211).  `none` arguments model
`NULL` pointers; `errorProvided` models whether the caller passed a
non-`NULL` `GError**` (checked at line 196).  On any precondition failure
`NULL` is returned with nothing invoked.  Otherwise the locker is built
with `device_open` initially `FALSE`, `open_func` is invoked once; on its
failure `NULL` is returned with the error propagated verbatim, and the
`g_autoptr` cleanup finalizes the partial locker (whose `device_open` is
still `FALSE`); on success `device_open` is set and the locker returned. -/
def fu_device_locker_new_full (device : Option Device)
    (open_func close_func : Option FuDeviceLockerFunc)
    (errorProvided : Bool) : NewOutcome :=
  match device, open_func, close_func, errorProvided with
  | some d, some openf, some closef, true =>
    let partialSelf : FuDeviceLocker :=
      { device := d, device_open := false, open_func := openf,
        close_func := closef, closeCalls := 0 }
    match openf 0 with
    | some e =>
      { result := .failed e, openCalls := 1,
        closeCalls := (fu_device_locker_finalize partialSelf).2 }
    | none =>
      { result := .ok { partialSelf with device_open := true },
        openCalls := 1, closeCalls := 0 }
  | _, _, _, _ => { result := .precondFail, openCalls := 0, closeCalls := 0 }

/-- `fu_device_locker_new` (lines 135-163): dispatches on the runtime type
of the device, handing the matching transport open/close pair to
`fu_device_locker_new_full`; a device of any other type yields a
`G_IO_ERROR_NOT_SUPPORTED` error with no open attempt. -/
def fu_device_locker_new (device : Option Device)
    (errorProvided : Bool) : NewOutcome :=
  match device, errorProvided with
  | some d, true =>
    if G_USB_IS_DEVICE d then
      fu_device_locker_new_full (some d) (some d.openBehavior)
        (some d.closeBehavior) true
    else if FU_IS_DEVICE d then
      fu_device_locker_new_full (some d) (some d.openBehavior)
        (some d.closeBehavior) true
    else
      { result := .failed { domain := G_IO_ERROR,
                            code := G_IO_ERROR_NOT_SUPPORTED,
                            message := "device object type not supported" },
        openCalls := 0, closeCalls := 0 }
  | _, _ => { result := .precondFail, openCalls := 0, closeCalls := 0 }

/-- Runs n explicit close calls in sequence, threading the guard state. -/
def iterateClose : Nat → FuDeviceLocker → FuDeviceLocker
  | 0, s => s
  | n + 1, s => iterateClose n (fu_device_locker_close s).2

/-- Total number of `close_func` invocations over a whole guard lifetime
consisting of n explicit close calls followed by guard destruction, for a
guard whose counter starts at its constructed value 0. -/
def lifetimeCloseCalls (g : FuDeviceLocker) (n : Nat) : Nat :=
  let s := iterateClose n g
  s.closeCalls + (fu_device_locker_finalize s).2

/-! Concrete instances used by counterexamples and witnesses. -/

/-- The error a gusb close reports when the device was unplugged. -/
def noDeviceError : GError :=
  { domain := G_USB_DEVICE_ERROR,
    code := G_USB_DEVICE_ERROR_NO_DEVICE,
    message := "no device" }

/-- A genuine (non device-gone) close failure. -/
def busyError : GError :=
  { domain := G_IO_ERROR, code := 0, message := "device busy" }

/-- An open failure. -/
def openFailError : GError :=
  { domain := G_IO_ERROR, code := 0, message := "cannot open" }

/-- A `GUsbDevice` that opens fine but whose close always fails with
`G_USB_DEVICE_ERROR_NO_DEVICE` (the device was unplugged). -/
def usbGoneDevice : Device :=
  { kind := .gusbDevice,
    openBehavior := fun _ => none,
    closeBehavior := fun _ => some noDeviceError }

/-- A fresh open guard over `usbGoneDevice`. -/
def usbGoneGuard : FuDeviceLocker :=
  { device := usbGoneDevice, device_open := true,
    open_func := usbGoneDevice.openBehavior,
    close_func := usbGoneDevice.closeBehavior, closeCalls := 0 }

/-- A `FuDevice` whose close always fails with a genuine (non device-gone)
error. -/
def busyDevice : Device :=
  { kind := .fuDevice,
    openBehavior := fun _ => none,
    closeBehavior := fun _ => some busyError }

/-- A fresh open guard over `busyDevice`. -/
def busyGuard : FuDeviceLocker :=
  { device := busyDevice, device_open := true,
    open_func := busyDevice.openBehavior,
    close_func := busyDevice.closeBehavior, closeCalls := 0 }

/-- A `FuDevice` whose open and close always succeed. -/
def cleanDevice : Device :=
  { kind := .fuDevice,
    openBehavior := fun _ => none,
    closeBehavior := fun _ => none }

/-- A fresh open guard over `cleanDevice`. -/
def cleanGuard : FuDeviceLocker :=
  { device := cleanDevice, device_open := true,
    open_func := cleanDevice.openBehavior,
    close_func := cleanDevice.closeBehavior, closeCalls := 0 }

/-- A `FuDevice` that cannot be opened. -/
def openFailDevice : Device :=
  { kind := .fuDevice,
    openBehavior := fun _ => some openFailError,
    closeBehavior := fun _ => none }

/-- A device of a type that is neither `GUsbDevice` nor `FuDevice`. -/
def unknownDevice : Device :=
  { kind := .other,
    openBehavior := fun _ => none,
    closeBehavior := fun _ => none }

/-- A `FuDevice` (not a `GUsbDevice`) whose close always fails with the
very error a gone USB device would report. -/
def fuGoneDevice : Device :=
  { kind := .fuDevice,
    openBehavior := fun _ => none,
    closeBehavior := fun _ => some noDeviceError }

/-- A fresh open guard over `fuGoneDevice`. -/
def fuGoneGuard : FuDeviceLocker :=
  { device := fuGoneDevice, device_open := true,
    open_func := fuGoneDevice.openBehavior,
    close_func := fuGoneDevice.closeBehavior, closeCalls := 0 }

/-! Helper lemmas shared by the claim theorems. -/

/-- Explicit close never changes the stored close function. -/
theorem close_preserves_close_func (s : FuDeviceLocker) :
    (fu_device_locker_close s).2.close_func = s.close_func := by
  unfold fu_device_locker_close
  split
  · rfl
  · cases hc : s.close_func s.closeCalls with
    | some e =>
      simp only [hc]
      split <;> rfl
    | none => simp only [hc]

/-- Whenever the guard is open, explicit close invokes close_func exactly
once, whatever the outcome. -/
theorem close_invokes_when_open (s : FuDeviceLocker)
    (h : s.device_open = true) :
    (fu_device_locker_close s).2.closeCalls = s.closeCalls + 1 := by
  unfold fu_device_locker_close
  rw [h]
  simp only [Bool.true_eq_false, if_false]
  cases hc : s.close_func s.closeCalls with
  | some e =>
    simp only [hc]
    split <;> rfl
  | none => simp only [hc]

/-- Finalize invokes close_func once when open, zero times otherwise. -/
theorem finalize_count (s : FuDeviceLocker) :
    (fu_device_locker_finalize s).2 = if s.device_open then 1 else 0 := by
  unfold fu_device_locker_finalize
  cases h : s.device_open with
  | false => simp
  | true =>
    simp only [if_true]
    cases hc : s.close_func s.closeCalls with
    | some e => simp [hc]
    | none => simp [hc]

/-- When every invocation of close_func succeeds, one explicit close
preserves the budget invariant: invocations so far plus a pending one if
still open never exceed one. -/
theorem close_budget_step (s : FuDeviceLocker)
    (hsucc : ∀ k, s.close_func k = none)
    (hinv : s.closeCalls + (if s.device_open then 1 else 0) ≤ 1) :
    (fu_device_locker_close s).2.closeCalls +
      (if (fu_device_locker_close s).2.device_open then 1 else 0) ≤ 1 := by
  cases h : s.device_open with
  | false => simpa [fu_device_locker_close, h] using hinv
  | true =>
    rw [h] at hinv
    have hc0 : s.closeCalls = 0 := by simp at hinv; omega
    simp [fu_device_locker_close, h, hsucc, hc0]

/-- The budget invariant carried through any number of explicit closes. -/
theorem iterateClose_budget (n : Nat) (s : FuDeviceLocker)
    (hsucc : ∀ k, s.close_func k = none)
    (hinv : s.closeCalls + (if s.device_open then 1 else 0) ≤ 1) :
    (iterateClose n s).closeCalls +
      (if (iterateClose n s).device_open then 1 else 0) ≤ 1 := by
  induction n generalizing s with
  | zero => exact hinv
  | succ n ih =>
    simp only [iterateClose]
    exact ih (fu_device_locker_close s).2
      (by rw [close_preserves_close_func]; exact hsucc)
      (close_budget_step s hsucc hinv)

/-! Claim theorems. -/

/-- C1, counterexample: the fresh open guard over a GUsbDevice whose close
reports `G_USB_DEVICE_ERROR_NO_DEVICE` satisfies every hypothesis of the
claim, and explicit close does return success, but `device_open` is not
set to false: the guard does not transition to the closed state (the
source returns at line 97 before the `device_open = FALSE` at 107). -/
theorem C1_counterexample :
    usbGoneGuard.device_open = true ∧
    G_USB_IS_DEVICE usbGoneGuard.device = true ∧
    usbGoneGuard.close_func usbGoneGuard.closeCalls = some noDeviceError ∧
    g_error_matches noDeviceError G_USB_DEVICE_ERROR
      G_USB_DEVICE_ERROR_NO_DEVICE = true ∧
    (fu_device_locker_close usbGoneGuard).1 = Except.ok () ∧
    (fu_device_locker_close usbGoneGuard).2.device_open ≠ false := by
  refine ⟨rfl, rfl, rfl, rfl, rfl, by decide⟩

/-- C1, amended: if explicit close invokes `close_fn` on an open guard and
it fails with the device-gone condition (a GUsbDevice reporting
`G_USB_DEVICE_ERROR_NO_DEVICE`), the call returns success rather than the
underlying error, but `is_open` remains true: the guard stays open (only a
successful `close_fn` invocation clears it). -/
theorem C1_device_gone_swallowed (self : FuDeviceLocker) (e : GError)
    (hopen : self.device_open = true)
    (hfail : self.close_func self.closeCalls = some e)
    (husb : G_USB_IS_DEVICE self.device = true)
    (hgone : g_error_matches e G_USB_DEVICE_ERROR
      G_USB_DEVICE_ERROR_NO_DEVICE = true) :
    (fu_device_locker_close self).1 = Except.ok () ∧
    (fu_device_locker_close self).2.device_open = true := by
  constructor <;> simp [fu_device_locker_close, hopen, hfail, husb, hgone]

/-- Witness for C1 at the concrete unplugged-USB guard. -/
theorem C1_device_gone_swallowed_witness :
    (fu_device_locker_close usbGoneGuard).1 = Except.ok () ∧
    (fu_device_locker_close usbGoneGuard).2.device_open = true :=
  C1_device_gone_swallowed usbGoneGuard noDeviceError rfl rfl rfl rfl

/-- C2, counterexample: a fresh guard whose close keeps failing with a
genuine error sees `close_func` invoked three times over a lifetime of two
explicit closes followed by destruction, refuting "at most once per guard
instance". -/
theorem C2_counterexample :
    busyGuard.closeCalls = 0 ∧
    lifetimeCloseCalls busyGuard 2 = 3 ∧
    ¬ lifetimeCloseCalls busyGuard 2 ≤ 1 := by
  refine ⟨rfl, rfl, by decide⟩

/-- C2, amended: provided every `close_func` invocation succeeds,
`close_func` is invoked at most once over the whole lifetime of a guard
instance — any number of explicit closes followed by destruction.  (A
failing invocation, whether swallowed as device-gone or propagated, leaves
`device_open` true and the code then re-invokes `close_func`.) -/
theorem C2_close_at_most_once (g : FuDeviceLocker) (n : Nat)
    (hfresh : g.closeCalls = 0)
    (hsucc : ∀ k, g.close_func k = none) :
    lifetimeCloseCalls g n ≤ 1 := by
  have h := iterateClose_budget n g hsucc
    (by rw [hfresh]; cases g.device_open <;> simp)
  show (iterateClose n g).closeCalls +
    (fu_device_locker_finalize (iterateClose n g)).2 ≤ 1
  rw [finalize_count]
  exact h

/-- Witness for C2: two explicit closes then destruction on the clean
guard yield at most one invocation. -/
theorem C2_close_at_most_once_witness :
    lifetimeCloseCalls cleanGuard 2 ≤ 1 :=
  C2_close_at_most_once cleanGuard 2 rfl (fun _ => rfl)

/-- C3: on an open guard, a `close_func` failure other than the
device-gone condition makes explicit close return exactly that error,
`device_open` stays true, `close_func` was invoked once, and a subsequent
explicit close invokes `close_func` again. -/
theorem C3_genuine_failure_propagated (self : FuDeviceLocker) (e : GError)
    (hopen : self.device_open = true)
    (hfail : self.close_func self.closeCalls = some e)
    (hnotgone : (G_USB_IS_DEVICE self.device &&
      g_error_matches e G_USB_DEVICE_ERROR
        G_USB_DEVICE_ERROR_NO_DEVICE) = false) :
    (fu_device_locker_close self).1 = Except.error e ∧
    (fu_device_locker_close self).2.device_open = true ∧
    (fu_device_locker_close self).2.closeCalls = self.closeCalls + 1 ∧
    (fu_device_locker_close (fu_device_locker_close self).2).2.closeCalls =
      self.closeCalls + 2 := by
  have h2 : (fu_device_locker_close self).2.device_open = true := by
    simp [fu_device_locker_close, hopen, hfail, hnotgone]
  have h3 : (fu_device_locker_close self).2.closeCalls =
      self.closeCalls + 1 := by
    simp [fu_device_locker_close, hopen, hfail, hnotgone]
  refine ⟨?_, h2, h3, ?_⟩
  · simp [fu_device_locker_close, hopen, hfail, hnotgone]
  · rw [close_invokes_when_open _ h2, h3]

/-- Witness for C3 at the busy guard. -/
theorem C3_genuine_failure_propagated_witness :
    (fu_device_locker_close busyGuard).1 = Except.error busyError ∧
    (fu_device_locker_close busyGuard).2.device_open = true ∧
    (fu_device_locker_close busyGuard).2.closeCalls =
      busyGuard.closeCalls + 1 ∧
    (fu_device_locker_close (fu_device_locker_close busyGuard).2).2.closeCalls =
      busyGuard.closeCalls + 2 :=
  C3_genuine_failure_propagated busyGuard busyError rfl rfl rfl

/-- C4: construction via `fu_device_locker_new_full` with a successful
`open_func` yields a guard with `device_open` true, `open_func` having
been invoked exactly once and `close_func` not at all. -/
theorem C4_new_full_open_success (d : Device)
    (openf closef : FuDeviceLockerFunc)
    (hopen : openf 0 = none) :
    fu_device_locker_new_full (some d) (some openf) (some closef) true =
      { result := .ok { device := d, device_open := true, open_func := openf,
                        close_func := closef, closeCalls := 0 },
        openCalls := 1, closeCalls := 0 } := by
  simp [fu_device_locker_new_full, hopen]

/-- Witness for C4 at the clean device. -/
theorem C4_new_full_open_success_witness :
    fu_device_locker_new_full (some cleanDevice) (some cleanDevice.openBehavior)
        (some cleanDevice.closeBehavior) true =
      { result := .ok { device := cleanDevice, device_open := true,
                        open_func := cleanDevice.openBehavior,
                        close_func := cleanDevice.closeBehavior,
                        closeCalls := 0 },
        openCalls := 1, closeCalls := 0 } :=
  C4_new_full_open_success cleanDevice cleanDevice.openBehavior
    cleanDevice.closeBehavior rfl

/-- C5: when `open_func` fails, construction returns no guard, the error
delivered is exactly the one `open_func` produced, and `close_func` is
never invoked — the `g_autoptr` finalization of the partial locker sees
`device_open` still false. -/
theorem C5_new_full_open_failure (d : Device)
    (openf closef : FuDeviceLockerFunc) (e : GError)
    (hopen : openf 0 = some e) :
    fu_device_locker_new_full (some d) (some openf) (some closef) true =
      { result := .failed e, openCalls := 1, closeCalls := 0 } := by
  simp [fu_device_locker_new_full, fu_device_locker_finalize, hopen]

/-- Witness for C5 at the device that cannot be opened. -/
theorem C5_new_full_open_failure_witness :
    fu_device_locker_new_full (some openFailDevice)
        (some openFailDevice.openBehavior)
        (some openFailDevice.closeBehavior) true =
      { result := .failed openFailError, openCalls := 1, closeCalls := 0 } :=
  C5_new_full_open_failure openFailDevice openFailDevice.openBehavior
    openFailDevice.closeBehavior openFailError rfl

/-- C6, counterexample: on the unplugged-USB guard the first explicit
close succeeds (the device-gone failure is swallowed), the second explicit
close also returns success, but `close_func` has then been invoked twice
across the two calls, refuting "exactly once". -/
theorem C6_counterexample :
    (fu_device_locker_close usbGoneGuard).1 = Except.ok () ∧
    (fu_device_locker_close
      (fu_device_locker_close usbGoneGuard).2).1 = Except.ok () ∧
    (fu_device_locker_close
      (fu_device_locker_close usbGoneGuard).2).2.closeCalls = 2 ∧
    (fu_device_locker_close
      (fu_device_locker_close usbGoneGuard).2).2.closeCalls ≠ 1 := by
  refine ⟨rfl, rfl, rfl, by decide⟩

/-- C6, amended: if the first explicit close succeeds through `close_func`
itself succeeding (not through the device-gone swallow), a second explicit
close is a no-op returning success, with `close_func` invoked exactly once
across both calls. -/
theorem C6_idempotent_after_clean_close (self : FuDeviceLocker)
    (hopen : self.device_open = true)
    (hsucc : self.close_func self.closeCalls = none) :
    (fu_device_locker_close self).1 = Except.ok () ∧
    (fu_device_locker_close (fu_device_locker_close self).2).1 =
      Except.ok () ∧
    (fu_device_locker_close (fu_device_locker_close self).2).2.closeCalls =
      self.closeCalls + 1 := by
  have hstate : (fu_device_locker_close self).2 =
      { self with closeCalls := self.closeCalls + 1,
                  device_open := false } := by
    simp [fu_device_locker_close, hopen, hsucc]
  refine ⟨?_, ?_, ?_⟩
  · simp [fu_device_locker_close, hopen, hsucc]
  · rw [hstate]; simp [fu_device_locker_close]
  · rw [hstate]; simp [fu_device_locker_close]

/-- Witness for C6 at the clean guard. -/
theorem C6_idempotent_after_clean_close_witness :
    (fu_device_locker_close cleanGuard).1 = Except.ok () ∧
    (fu_device_locker_close (fu_device_locker_close cleanGuard).2).1 =
      Except.ok () ∧
    (fu_device_locker_close (fu_device_locker_close cleanGuard).2).2.closeCalls =
      cleanGuard.closeCalls + 1 :=
  C6_idempotent_after_clean_close cleanGuard rfl rfl

/-- C7: destruction while open invokes `close_func` exactly once and turns
any failure into a logged warning only (the finalize model has no error
out-channel, so no failure can reach a caller); destruction while closed
invokes `close_func` zero times and logs nothing. -/
theorem C7_finalize_policy (self : FuDeviceLocker) :
    (self.device_open = true → (fu_device_locker_finalize self).2 = 1) ∧
    (self.device_open = false → fu_device_locker_finalize self = (none, 0)) ∧
    (∀ e, self.device_open = true →
      self.close_func self.closeCalls = some e →
      fu_device_locker_finalize self = (some e, 1)) := by
  refine ⟨?_, ?_, ?_⟩
  · intro h; rw [finalize_count, h]; rfl
  · intro h; simp [fu_device_locker_finalize, h]
  · intro e h hf; simp [fu_device_locker_finalize, h, hf]

/-- Witness for C7: the busy guard open and closed at destruction. -/
theorem C7_finalize_policy_witness :
    (fu_device_locker_finalize busyGuard).2 = 1 ∧
    fu_device_locker_finalize { busyGuard with device_open := false } =
      (none, 0) ∧
    fu_device_locker_finalize busyGuard = (some busyError, 1) :=
  ⟨(C7_finalize_policy busyGuard).1 rfl,
   (C7_finalize_policy { busyGuard with device_open := false }).2.1 rfl,
   (C7_finalize_policy busyGuard).2.2 busyError rfl rfl⟩

/-- C8: construct-by-inference on a device that is neither a `GUsbDevice`
nor a `FuDevice` fails with `G_IO_ERROR_NOT_SUPPORTED` and invokes no open
function at all. -/
theorem C8_new_unsupported_type (d : Device)
    (husb : G_USB_IS_DEVICE d = false)
    (hfu : FU_IS_DEVICE d = false) :
    fu_device_locker_new (some d) true =
      { result := .failed { domain := G_IO_ERROR,
                            code := G_IO_ERROR_NOT_SUPPORTED,
                            message := "device object type not supported" },
        openCalls := 0, closeCalls := 0 } := by
  simp [fu_device_locker_new, husb, hfu]

/-- Witness for C8 at a device of unknown type. -/
theorem C8_new_unsupported_type_witness :
    fu_device_locker_new (some unknownDevice) true =
      { result := .failed { domain := G_IO_ERROR,
                            code := G_IO_ERROR_NOT_SUPPORTED,
                            message := "device object type not supported" },
        openCalls := 0, closeCalls := 0 } :=
  C8_new_unsupported_type unknownDevice rfl rfl

/-- C9: on a guard whose device is not a `GUsbDevice`, every `close_func`
failure on explicit close is propagated verbatim and never swallowed,
whatever its domain and code; the guard stays open. -/
theorem C9_non_usb_always_propagates (self : FuDeviceLocker) (e : GError)
    (hopen : self.device_open = true)
    (hnotusb : G_USB_IS_DEVICE self.device = false)
    (hfail : self.close_func self.closeCalls = some e) :
    (fu_device_locker_close self).1 = Except.error e ∧
    (fu_device_locker_close self).2.device_open = true := by
  constructor <;> simp [fu_device_locker_close, hopen, hfail, hnotusb]

/-- Witness for C9: a `FuDevice` failing with the very `noDeviceError` a
gone USB device would report still has the error propagated. -/
theorem C9_non_usb_always_propagates_witness :
    (fu_device_locker_close fuGoneGuard).1 = Except.error noDeviceError ∧
    (fu_device_locker_close fuGoneGuard).2.device_open = true :=
  C9_non_usb_always_propagates fuGoneGuard noDeviceError rfl rfl rfl

/-- C10: called with a NULL `GError**`, both constructors trip their
`g_return_val_if_fail` check: they return NULL without setting an error
and invoke no open function, their documentation marking the error
location as optional notwithstanding. -/
theorem C10_null_error_rejected (device : Option Device)
    (openf closef : Option FuDeviceLockerFunc) :
    fu_device_locker_new_full device openf closef false =
      { result := .precondFail, openCalls := 0, closeCalls := 0 } ∧
    fu_device_locker_new device false =
      { result := .precondFail, openCalls := 0, closeCalls := 0 } := by
  constructor
  · cases device <;> cases openf <;> cases closef <;> rfl
  · cases device <;> rfl
